import Mathlib

/-!
Verification of the pixx.io MCP server (src/pixxio_mcp.py) against its
natural-language specification.  The Python module is a thin adapter over the
pixx.io DAM REST API: it builds request parameters (including a nested JSON
filter grammar), issues HTTP calls through small gateway helpers, and
normalizes loosely-typed JSON payloads into fixed flat records.

The embedding below models Python/JSON values with the inductive type `Py`,
Python `dict.get` with `olookup`/`ogetD`, Python truthiness with `truthy`,
and each relevant function of the source file as a total Lean function over
those values.  Network I/O is represented by passing the hypothetical HTTP
outcome (a status/body pair or a timeout) explicitly to the gateway helpers.
-/

namespace Pixxio

/-- Model of a Python/JSON value as manipulated by the source module:
`None`, booleans, integers, strings, lists and string-keyed dicts.
(The module never performs float arithmetic on payload values.) -/
inductive Py where
  | none : Py
  | bool : Bool → Py
  | int : Int → Py
  | str : String → Py
  | list : List Py → Py
  | dict : List (String × Py) → Py

/-- A JSON object / Python dict: an ordered association list of fields,
as received from or sent to the DAM API. -/
abbrev Obj := List (String × Py)

/-- First value bound to key `k`, like Python `d.get(k)` returning
`None`-absence as `Option.none` (a key present with JSON null yields
`some Py.none`, exactly as in Python). -/
def olookup (d : Obj) (k : String) : Option Py :=
  match d with
  | [] => Option.none
  | (k2, v) :: rest => if k2 = k then some v else olookup rest k

/-- Python `d.get(k, default)`. -/
def ogetD (d : Obj) (k : String) (default : Py) : Py :=
  (olookup d k).getD default

/-- Python truthiness of a value (`bool(v)`): `None`, `False`, `0`, `""`,
`[]` and the empty dict are falsy, everything else truthy. -/
def truthy : Py → Bool
  | .none => false
  | .bool b => b
  | .int n => n != 0
  | .str s => s != ""
  | .list l => !l.isEmpty
  | .dict d => !d.isEmpty

/-- Python `a or b` on payload values: `a` when truthy, else `b`. -/
def pyOr (a b : Py) : Py := if truthy a then a else b

/-- Keys of an object, in order. -/
def objKeys (o : Obj) : List String := o.map (fun p => p.1)

mutual
/-- Python `str(v)` for a payload value: `None ↦ "None"`, booleans to
`True`/`False`, integers in decimal, strings unchanged, containers via
their `repr`.  (String escaping inside `repr` is not modelled; no claim
depends on it.) -/
def pyStr : Py → String
  | .none => "None"
  | .bool true => "True"
  | .bool false => "False"
  | .int n => toString n
  | .str s => s
  | .list l => "[" ++ pyReprList l ++ "]"
  | .dict d => "\x7b" ++ pyReprDict d ++ "\x7d"

/-- Python `repr(v)` for a payload value (strings quoted). -/
def pyRepr : Py → String
  | .str s => "'" ++ s ++ "'"
  | v => pyStr v

/-- Comma-joined reprs of the elements of a list. -/
def pyReprList : List Py → String
  | [] => ""
  | [v] => pyRepr v
  | v :: rest => pyRepr v ++ ", " ++ pyReprList rest

/-- Comma-joined `key: value` reprs of the fields of a dict. -/
def pyReprDict : List (String × Py) → String
  | [] => ""
  | [(k, v)] => "'" ++ k ++ "': " ++ pyRepr v
  | (k, v) :: rest => "'" ++ k ++ "': " ++ pyRepr v ++ ", " ++ pyReprDict rest
end

/-! ## Configuration and the API gateway (`_get_client`, `_api_get`, ...) -/

/-- Process-wide configuration: `PIXXIO_BASE_URL` and `PIXXIO_API_KEY`
(empty string when the environment variable is unset, as in the source). -/
structure Config where
  base_url : String
  api_key : String
deriving DecidableEq, Repr

/-- An `httpx.AsyncClient` as constructed by the source: optional base URL,
optional bearer token in the Authorization header, timeout in seconds
(the source passes the integral floats 30.0 and 15.0), redirect policy. -/
structure HttpClient where
  base_url : Option String
  auth_bearer : Option String
  timeout : Nat
  follow_redirects : Bool
deriving DecidableEq, Repr

/-- The client `_get_client` builds once configuration passed its checks:
`AsyncClient(base_url=..., headers=Bearer key, timeout=30.0)`. -/
def mkClient (cfg : Config) : HttpClient :=
  { base_url := some cfg.base_url
    auth_bearer := some cfg.api_key
    timeout := 30
    follow_redirects := false }

/-- The client built at source line 383 for fetching preview bytes:
`AsyncClient(timeout=15.0, follow_redirects=True, headers=Bearer key)`. -/
def previewFetchClient (key : String) : HttpClient :=
  { base_url := Option.none
    auth_bearer := some key
    timeout := 15
    follow_redirects := true }

/-- The client built at source line 453 for fetching the binary of
`download_asset`: `AsyncClient(timeout=30.0, follow_redirects=True)`. -/
def downloadFetchClient : HttpClient :=
  { base_url := Option.none
    auth_bearer := Option.none
    timeout := 30
    follow_redirects := true }

/-- Errors a gateway call can raise.  `configError` models the
`ValueError`s of `_get_client`; `httpStatusError` models the
`httpx.HTTPStatusError` of `raise_for_status` (which carries the response
status, but into which the source parses no error body, no error code, no
message excerpt); `timeoutError` models `httpx.TimeoutException`. -/
inductive ApiError where
  | configError (msg : String)
  | httpStatusError (status : Nat)
  | timeoutError
deriving DecidableEq, Repr

/-- Outcome of the single HTTP exchange a gateway helper performs:
a response with a status and JSON body, or a timeout. -/
inductive HttpOutcome where
  | response (status : Nat) (body : Py)
  | timeout

/-- `_get_client`: raises a configuration `ValueError` when the base URL or
the API key is empty, otherwise returns the authenticated client.  The
checks run before any client exists, hence before any network call. -/
def getClient (cfg : Config) : Except ApiError HttpClient :=
  if cfg.base_url = "" then
    .error (.configError "PIXXIO_BASE_URL is not configured. Set the PIXXIO_BASE_URL environment variable.")
  else if cfg.api_key = "" then
    .error (.configError "PIXXIO_API_KEY is not configured. Set the PIXXIO_API_KEY environment variable.")
  else
    .ok (mkClient cfg)

/-- Shared body of `_api_get` / `_api_post` / `_api_put`: resolve the client
(configuration errors propagate before the exchange), perform one exchange,
then `resp.raise_for_status()` — httpx raises for every non-2xx status — and
return the parsed JSON body.  No branch retries and no branch inspects the
body of a failed response. -/
def gatewayCall (cfg : Config) (outcome : HttpOutcome) : Except ApiError Py :=
  match getClient cfg with
  | .error e => .error e
  | .ok _ =>
    match outcome with
    | .timeout => .error .timeoutError
    | .response status body =>
      if 200 ≤ status ∧ status ≤ 299 then .ok body
      else .error (.httpStatusError status)

/-- `_api_get`, given the outcome of its one exchange. -/
def apiGet (cfg : Config) (outcome : HttpOutcome) : Except ApiError Py :=
  gatewayCall cfg outcome

/-- `_api_post`, given the outcome of its one exchange. -/
def apiPost (cfg : Config) (outcome : HttpOutcome) : Except ApiError Py :=
  gatewayCall cfg outcome

/-- `_api_put`, given the outcome of its one exchange. -/
def apiPut (cfg : Config) (outcome : HttpOutcome) : Except ApiError Py :=
  gatewayCall cfg outcome

/-! ## The `search` tool: filter builder and request parameters -/

/-- The filter-related arguments of the `search` tool, with the Python
optionality of each parameter preserved (`query` is a required string,
the other four default to `None`). -/
structure SearchArgs where
  query : String
  file_type : Option String
  file_extension : Option String
  directory_id : Option Int
  collection_id : Option Int

/-- The DAM's tagged filter grammar as emitted by `search`: five leaf
filters and the AND connector. -/
inductive Filter where
  | searchTerm (term : String)
  | fileType (t : String)
  | fileExtension (e : String)
  | directory (id : Int)
  | collection (id : Int)
  | connectorAnd (fs : List Filter)

/-- Python truthiness of an `Optional[str]` argument. -/
def optStrTruthy : Option String → Bool
  | Option.none => false
  | some s => s != ""

/-- Python truthiness of an `Optional[int]` argument. -/
def optIntTruthy : Option Int → Bool
  | Option.none => false
  | some n => n != 0

mutual
/-- The dict literal the source builds for each filter (lines 156–193):
`searchTerm` carries the hardcoded `useSynonyms: True` and `directory`
the hardcoded `includeSubdirectories: True`. -/
def Filter.toPy : Filter → Py
  | .searchTerm term =>
    .dict [("filterType", .str "searchTerm"), ("term", .str term), ("useSynonyms", .bool true)]
  | .fileType t =>
    .dict [("filterType", .str "fileType"), ("fileType", .str t)]
  | .fileExtension e =>
    .dict [("filterType", .str "fileExtension"), ("fileExtension", .str e)]
  | .directory id =>
    .dict [("filterType", .str "directory"), ("directoryID", .int id), ("includeSubdirectories", .bool true)]
  | .collection id =>
    .dict [("filterType", .str "collection"), ("collectionID", .int id)]
  | .connectorAnd fs =>
    .dict [("filterType", .str "connectorAnd"), ("filters", .list (Filter.listToPy fs))]

/-- Pointwise `Filter.toPy` over a list of filters. -/
def Filter.listToPy : List Filter → List Py
  | [] => []
  | f :: fs => Filter.toPy f :: Filter.listToPy fs
end

/-- The `filters` list built at source lines 153–185: one filter appended
per truthy input, in the fixed order query, file_type, file_extension,
directory_id, collection_id. -/
def buildFilters (a : SearchArgs) : List Filter :=
  (if a.query != "" then [Filter.searchTerm a.query] else []) ++
  (if optStrTruthy a.file_type then [Filter.fileType (a.file_type.getD "")] else []) ++
  (if optStrTruthy a.file_extension then [Filter.fileExtension (a.file_extension.getD "")] else []) ++
  (if optIntTruthy a.directory_id then [Filter.directory (a.directory_id.getD 0)] else []) ++
  (if optIntTruthy a.collection_id then [Filter.collection (a.collection_id.getD 0)] else [])

/-- The column of response fields requested by `search`. -/
def searchResponseFields : String :=
  "id,fileName,fileExtension,fileType,previewFileURL,description,keywords,subject,rating,uploadDate,fileSize,width,height"

/-- The base query parameters of `search` (source lines 143–150); the page
size sent to the API is `min(page_size, 100)`. -/
def searchBaseParams (page page_size : Int) (sort_by sort_direction : String) : Obj :=
  [("showFiles", .str "true"),
   ("page", .int page),
   ("pageSize", .int (min page_size 100)),
   ("sortBy", .str sort_by),
   ("sortDirection", .str sort_direction),
   ("responseFields", .str searchResponseFields)]

/-- Full request parameters of `search` (source lines 143–193): the base
parameters, plus a `filter` entry holding the single filter when exactly one
was built, a `connectorAnd` of all of them when more than one was built, and
nothing when none was built.  (The source serializes the filter value with
`json.dumps`; the embedding keeps the structured value.) -/
def searchRequestParams (a : SearchArgs) (page page_size : Int)
    (sort_by sort_direction : String) : Obj :=
  let params := searchBaseParams page page_size sort_by sort_direction
  match buildFilters a with
  | [] => params
  | [f] => params ++ [("filter", Filter.toPy f)]
  | fs => params ++ [("filter", Filter.toPy (.connectorAnd fs))]

/-- Whether a filter is the AND connector. -/
def Filter.isConnector : Filter → Bool
  | .connectorAnd _ => true
  | _ => false

/-! ## Response normalization of `search` and `fetch` -/

/-- The per-file summary record built by `search` (source lines 206–218)
from one raw DAM file object `f`; every output key is always present and
every absent input field falls back to a fixed default via `dict.get`. -/
def searchResultRecord (f : Obj) : Obj :=
  [("id", .str (pyStr (ogetD f "id" (.str "")))),
   ("title", ogetD f "fileName" (.str "")),
   ("description", pyOr (ogetD f "description" (.str "")) (ogetD f "subject" (.str ""))),
   ("file_type", ogetD f "fileType" (.str "")),
   ("file_extension", ogetD f "fileExtension" (.str "")),
   ("keywords", ogetD f "keywords" (.list [])),
   ("rating", ogetD f "rating" .none),
   ("preview_url", ogetD f "previewFileURL" (.str "")),
   ("upload_date", ogetD f "uploadDate" (.str "")),
   ("file_size", ogetD f "fileSize" .none),
   ("dimensions",
     if truthy (ogetD f "width" .none) then
       .str (pyStr (ogetD f "width" (.str "?")) ++ "x" ++ pyStr (ogetD f "height" (.str "?")))
     else .none)]

/-- The dictionary `search` returns (source lines 200–228), given the file
objects and quantity extracted from the API payload (`data.get("files", [])`
and `data.get("quantity", 0)`): the id list, the normalized result records,
the DAM's total, and the caller's original page and page_size echoed back.
No offset, returned-count or next-offset field is computed anywhere. -/
def searchReturnData (page page_size : Int) (files : List Obj) (quantity : Py) : Obj :=
  [("ids", .list (files.map (fun f => .str (pyStr (ogetD f "id" (.str "")))))),
   ("results", .list (files.map (fun f => .dict (searchResultRecord f)))),
   ("total_results", quantity),
   ("page", .int page),
   ("page_size", .int page_size)]

/-- The full record `fetch` returns (source lines 254–281) for the raw file
object `f` (after the `data.get("file", data)` unwrap), where `id` is the
asset id string the caller requested: every output key is always present,
and each absent input field falls back to its fixed default — note the `id`
output falls back to the requested id itself. -/
def fetchRecord (id : String) (f : Obj) : Obj :=
  [("id", .str (pyStr (ogetD f "id" (.str id)))),
   ("title", ogetD f "fileName" (.str "")),
   ("file_name", ogetD f "fileName" (.str "")),
   ("file_extension", ogetD f "fileExtension" (.str "")),
   ("file_type", ogetD f "fileType" (.str "")),
   ("file_size", ogetD f "fileSize" .none),
   ("description", ogetD f "description" (.str "")),
   ("subject", ogetD f "subject" (.str "")),
   ("creator", ogetD f "creator" (.str "")),
   ("keywords", ogetD f "keywords" (.list [])),
   ("rating", ogetD f "rating" .none),
   ("colorspace", ogetD f "colorspace" (.str "")),
   ("width", ogetD f "width" .none),
   ("height", ogetD f "height" .none),
   ("orientation", ogetD f "orientation" (.str "")),
   ("preview_url", ogetD f "previewFileURL" (.str "")),
   ("original_file_url", ogetD f "originalFileURL" (.str "")),
   ("create_date", ogetD f "createDate" (.str "")),
   ("modify_date", ogetD f "modifyDate" (.str "")),
   ("upload_date", ogetD f "uploadDate" (.str "")),
   ("directory", ogetD f "directory" .none),
   ("collections", ogetD f "staticCollections" (.list [])),
   ("language_codes", ogetD f "languageCodes" (.list [])),
   ("is_archived", ogetD f "isArchived" (.bool false)),
   ("is_download_locked", ogetD f "isDownloadLocked" (.bool false)),
   ("metadata_fields", ogetD f "metadataFields" .none)]

/-- The fixed key set of a `search` result record. -/
def searchRecordKeys : List String :=
  ["id", "title", "description", "file_type", "file_extension", "keywords",
   "rating", "preview_url", "upload_date", "file_size", "dimensions"]

/-- The fixed key set of the `search` return dictionary. -/
def searchReturnKeys : List String :=
  ["ids", "results", "total_results", "page", "page_size"]

/-- The fixed key set of a `fetch` record. -/
def fetchRecordKeys : List String :=
  ["id", "title", "file_name", "file_extension", "file_type", "file_size",
   "description", "subject", "creator", "keywords", "rating", "colorspace",
   "width", "height", "orientation", "preview_url", "original_file_url",
   "create_date", "modify_date", "upload_date", "directory", "collections",
   "language_codes", "is_archived", "is_download_locked", "metadata_fields"]

/-! ## `list_collections` and `get_keywords` request parameters -/

/-- Query parameters of `list_collections` (source lines 541–544): the page
size sent to the API is `min(page_size, 100)`. -/
def listCollectionsParams (page page_size : Int) : Obj :=
  [("page", .int page),
   ("pageSize", .int (min page_size 100))]

/-- Query parameters of `get_keywords` (source lines 585–590): the page size
sent to the API is `min(page_size, 100)`, and a `filter` entry is added only
for a truthy query. -/
def getKeywordsParams (query : Option String) (page page_size : Int) : Obj :=
  let params := [("page", .int page), ("pageSize", .int (min page_size 100))]
  match query with
  | some q => if q != "" then params ++ [("filter", .str q)] else params
  | Option.none => params

/-! ## `list_directories` tree formatting (`_format_dir`) -/

/-- A value looked up in an object is structurally smaller than the object. -/
theorem olookup_sizeOf_lt {d : Obj} {k : String} {v : Py} (h : olookup d k = some v) :
    sizeOf v < sizeOf d := by
  induction d with
  | nil => simp [olookup] at h
  | cons p rest ih =>
    obtain ⟨k2, v2⟩ := p
    simp only [olookup] at h
    split at h
    · cases h
      simp only [List.cons.sizeOf_spec, Prod.mk.sizeOf_spec]
      omega
    · have := ih h
      simp only [List.cons.sizeOf_spec, Prod.mk.sizeOf_spec]
      omega

/-- The five always-present fields of a formatted directory
(source lines 505–511). -/
def formatDirBase (d : Obj) : Obj :=
  [("id", ogetD d "id" .none),
   ("name", ogetD d "name" (.str "")),
   ("path", ogetD d "path" (.str "")),
   ("has_children", ogetD d "hasChildren" (.bool false)),
   ("file_count", ogetD d "quantity" (.int 0))]

/-- `_format_dir` (source lines 504–514): the base fields, plus a
`children` entry mapping `_format_dir` over the child list, in order, added
only when `d.get("children")` is truthy.  A truthy non-list `children`
value would raise in Python during iteration and is modelled as a null
entry; a non-dict argument would raise on `.get` and is modelled as
itself.  Claims about `_format_dir` concern object inputs with list
children, where the model matches the source exactly. -/
def formatDir : Py → Py
  | .dict d =>
    if truthy (ogetD d "children" .none) then
      match h2 : olookup d "children" with
      | some (.list cs) =>
        .dict (formatDirBase d ++
          [("children", .list (cs.attach.map (fun c => formatDir c.1)))])
      | some _ => .dict (formatDirBase d ++ [("children", .none)])
      | Option.none => .dict (formatDirBase d)
    else .dict (formatDirBase d)
  | p => p
termination_by p => sizeOf p
decreasing_by
  have h1 := List.sizeOf_lt_of_mem c.2
  have h3 := olookup_sizeOf_lt h2
  simp only [Py.list.sizeOf_spec, Py.dict.sizeOf_spec] at *
  omega

/-! ## `download_asset`: parameter building and absence of validation -/

/-- First externally visible action of a tool invocation: either the
initial HTTP request of the call, or a validation failure raised before
any network traffic. -/
inductive ToolStep where
  | httpGet (path : String) (params : Obj)
  | validationError (msg : String)

/-- The convert endpoint path for an asset id. -/
def convertPath (id : Int) : String := "/api/v1/files/" ++ toString id ++ "/convert"

/-- The convert-request parameters built by `download_asset` (source lines
430–442, identical in `get_download_url`): `fileExtension` is attached only
when the extension is truthy and `download_type == "custom"`; `maxSize`,
`width` and `height` are attached when truthy.  No other key is ever
attached — in particular no `downloadFormatID`. -/
def downloadConvertParams (download_type : String) (file_extension : Option String)
    (max_size width height : Option Int) (quality : Int) : Obj :=
  let params : Obj :=
    [("downloadType", .str download_type), ("responseType", .str "path"), ("quality", .int quality)]
  let params := if optStrTruthy file_extension && download_type == "custom"
                then params ++ [("fileExtension", .str (file_extension.getD ""))] else params
  let params := if optIntTruthy max_size then params ++ [("maxSize", .int (max_size.getD 0))] else params
  let params := if optIntTruthy width then params ++ [("width", .int (width.getD 0))] else params
  let params := if optIntTruthy height then params ++ [("height", .int (height.getD 0))] else params
  params

/-- What `download_asset` does before any network traffic (source lines
396–444): it builds the convert parameters and immediately issues
`_api_get` on the convert path.  The tool has no `download_format_id`
parameter and contains no validation branch for any `download_type`
value, so the first step is always the HTTP request. -/
def downloadAssetFirstStep (id : Int) (download_type : String) (file_extension : Option String)
    (max_size width height : Option Int) (quality : Int) : ToolStep :=
  ToolStep.httpGet (convertPath id)
    (downloadConvertParams download_type file_extension max_size width height quality)

/-- Whether a tool step is a validation failure. -/
def ToolStep.isValidationError : ToolStep → Bool
  | .validationError _ => true
  | .httpGet _ _ => false

/-! ## Auxiliary predicates and concrete example values -/

/-- Whether a filter targets a directory. -/
def Filter.mentionsDirectory : Filter → Bool
  | .directory _ => true
  | _ => false

/-- Whether a filter targets a collection. -/
def Filter.mentionsCollection : Filter → Bool
  | .collection _ => true
  | _ => false

/-- A fully populated configuration for concrete instantiations. -/
def goodCfg : Config := ⟨"https://example.px.media", "test-key"⟩

/-- A structured DAM error body, as the spec says error responses carry. -/
def structuredErrA : Py := .dict [("code", .int 1001), ("message", .str "invalid token")]

/-- A second structured DAM error body with a different code and message. -/
def structuredErrB : Py := .dict [("code", .int 2002), ("message", .str "token expired")]

/-- A child directory payload for concrete tree-formatting instantiations. -/
def childA : Obj := [("id", Py.int 2), ("name", Py.str "A")]

/-- A second child directory payload. -/
def childB : Obj := [("id", Py.int 3), ("name", Py.str "B")]

/-- A parent directory payload holding two children in order. -/
def parentDir : Obj :=
  [("id", Py.int 1), ("name", Py.str "root"),
   ("children", Py.list [Py.dict childA, Py.dict childB])]

/-! ## Helper lemmas on object lookup -/

/-- Lookup in a concatenation hits the left part first. -/
theorem olookup_append_left {xs : Obj} (ys : Obj) {k : String} {v : Py}
    (h : olookup xs k = some v) : olookup (xs ++ ys) k = some v := by
  induction xs with
  | nil => simp [olookup] at h
  | cons p rest ih =>
    obtain ⟨k2, v2⟩ := p
    simp only [olookup, List.cons_append] at h ⊢
    split at h
    · simp [*]
    · simp only [*, if_neg]
      exact ih h

/-- Lookup in a concatenation falls through to the right part when the key
is absent on the left. -/
theorem olookup_append_right {xs : Obj} (ys : Obj) {k : String}
    (h : olookup xs k = Option.none) : olookup (xs ++ ys) k = olookup ys k := by
  induction xs with
  | nil => simp
  | cons p rest ih =>
    obtain ⟨k2, v2⟩ := p
    simp only [olookup, List.cons_append] at h ⊢
    split at h
    · simp at h
    · simp only [*, if_neg]
      exact ih h

/-! ## C3: `download_asset` performs no `downloadFormat` validation -/

/-- C3, counterexample: calling `download_asset` with
`download_type = "downloadFormat"` and no format id does not fail
validation before the network: its first externally visible step is the
HTTP convert request (so an HTTP request IS issued), refuting the claim
that the call fails with a validation error and no HTTP request is made.
The tool does not even have a `download_format_id` parameter. -/
theorem download_format_counterexample :
    downloadAssetFirstStep 1 "downloadFormat" Option.none Option.none Option.none Option.none 90
      = ToolStep.httpGet "/api/v1/files/1/convert"
          [("downloadType", Py.str "downloadFormat"), ("responseType", Py.str "path"),
           ("quality", Py.int 90)] ∧
    (downloadAssetFirstStep 1 "downloadFormat" Option.none Option.none Option.none Option.none
        90).isValidationError = false := by
  exact ⟨rfl, rfl⟩

/-- C3, amended: `download_asset` with `download_type = "downloadFormat"`
performs no validation at all (it has no `download_format_id` parameter);
for every combination of the remaining arguments its first step is the
HTTP convert request, whose parameters carry the `downloadType` as given
and no format-related field (`fileExtension` is only attached when the
type is `"custom"`, and no `downloadFormatID` key exists). -/
theorem download_format_amended (id : Int) (fe : Option String)
    (ms w hgt : Option Int) (q : Int) :
    downloadAssetFirstStep id "downloadFormat" fe ms w hgt q
      = ToolStep.httpGet (convertPath id) (downloadConvertParams "downloadFormat" fe ms w hgt q) ∧
    (downloadAssetFirstStep id "downloadFormat" fe ms w hgt q).isValidationError = false ∧
    olookup (downloadConvertParams "downloadFormat" fe ms w hgt q) "fileExtension" = Option.none ∧
    olookup (downloadConvertParams "downloadFormat" fe ms w hgt q) "downloadFormatID" = Option.none ∧
    olookup (downloadConvertParams "downloadFormat" fe ms w hgt q) "downloadType"
      = some (Py.str "downloadFormat") := by
  refine ⟨rfl, rfl, ?_, ?_, ?_⟩ <;>
  · simp only [downloadConvertParams]
    cases optStrTruthy fe <;> cases optIntTruthy ms <;> cases optIntTruthy w <;>
      cases optIntTruthy hgt <;> simp [olookup]

/-! ## C4: gateway error behaviour on non-2xx responses -/

/-- C4, counterexample: two 401 responses whose bodies are different
structured error payloads (different codes and messages) make `_api_get`
raise the very same error, carrying only the status — so the raised error
does not carry a parsed error code/message (nor a body excerpt), refuting
the claim that a successfully parsed error body is reflected in the error. -/
theorem gateway_error_body_ignored_counterexample :
    apiGet goodCfg (.response 401 structuredErrA) = .error (.httpStatusError 401) ∧
    apiGet goodCfg (.response 401 structuredErrB) = .error (.httpStatusError 401) ∧
    structuredErrA ≠ structuredErrB := by
  refine ⟨rfl, rfl, ?_⟩
  simp [structuredErrA, structuredErrB]

/-- C4, amended: on every non-2xx response each gateway helper raises an
HTTP-status error carrying only the raw status (`raise_for_status`): the
response body is never parsed into the error (the error is identical for
any two bodies), no classification label is attached, a timeout raises a
distinct timeout error, and no retry is attempted — the single exchange's
failure is surfaced as-is. -/
theorem gateway_non2xx_amended (cfg : Config) (status : Nat) (body1 body2 : Py)
    (hb : cfg.base_url ≠ "") (hk : cfg.api_key ≠ "") (hs : ¬(200 ≤ status ∧ status ≤ 299)) :
    apiGet cfg (.response status body1) = .error (.httpStatusError status) ∧
    apiGet cfg (.response status body1) = apiGet cfg (.response status body2) ∧
    apiPost cfg (.response status body1) = .error (.httpStatusError status) ∧
    apiPut cfg (.response status body1) = .error (.httpStatusError status) ∧
    apiGet cfg .timeout = .error .timeoutError ∧
    ApiError.httpStatusError status ≠ ApiError.timeoutError := by
  refine ⟨?_, ?_, ?_, ?_, ?_, by simp⟩ <;>
    simp [apiGet, apiPost, apiPut, gatewayCall, getClient, hb, hk, hs]

/-- C4, witness for the amended theorem at a concrete 404 response. -/
theorem gateway_non2xx_witness :
    apiGet goodCfg (.response 404 structuredErrA) = .error (.httpStatusError 404) :=
  (gateway_non2xx_amended goodCfg 404 structuredErrA structuredErrB
    (by decide) (by decide) (by decide)).1

/-! ## C6: missing configuration fails before any network call -/

/-- C6: when the base URL or the API key is missing from the process-wide
configuration (the module has no per-call credential parameters), every
gateway call fails with a configuration error: the result is independent
of any hypothetical network outcome (so it fails before any network call)
and is never an HTTP-status or timeout error. -/
theorem missing_config_fails_before_network (cfg : Config) (o1 o2 : HttpOutcome)
    (h : cfg.base_url = "" ∨ cfg.api_key = "") :
    (∃ msg, apiGet cfg o1 = .error (.configError msg)) ∧
    apiGet cfg o1 = apiGet cfg o2 ∧
    (∀ s, apiGet cfg o1 ≠ .error (.httpStatusError s)) ∧
    apiGet cfg o1 ≠ .error .timeoutError ∧
    (∃ msg, apiPost cfg o1 = .error (.configError msg)) ∧
    (∃ msg, apiPut cfg o1 = .error (.configError msg)) := by
  obtain ⟨msg, hm⟩ : ∃ msg, getClient cfg = .error (.configError msg) := by
    by_cases hb : cfg.base_url = ""
    · exact ⟨"PIXXIO_BASE_URL is not configured. Set the PIXXIO_BASE_URL environment variable.",
        by simp [getClient, hb]⟩
    · rcases h with h | h
      · exact absurd h hb
      · exact ⟨"PIXXIO_API_KEY is not configured. Set the PIXXIO_API_KEY environment variable.",
          by simp [getClient, hb, h]⟩
  refine ⟨⟨msg, ?_⟩, ?_, ?_, ?_, ⟨msg, ?_⟩, ⟨msg, ?_⟩⟩ <;>
    simp [apiGet, apiPost, apiPut, gatewayCall, hm]

/-- C6, witness: with both configuration values empty the result of
`_api_get` is the same for a successful response and a timeout. -/
theorem missing_config_witness :
    apiGet ⟨"", ""⟩ (.response 200 Py.none) = apiGet ⟨"", ""⟩ HttpOutcome.timeout :=
  (missing_config_fails_before_network ⟨"", ""⟩ (.response 200 Py.none)
    HttpOutcome.timeout (Or.inl rfl)).2.1

/-! ## C8: timeout values of metadata and binary calls -/

/-- C8, counterexample: the binary fetch of `download_asset` uses a 30 s
timeout and the binary fetch of `get_preview` a 15 s timeout — neither is
approximately 60 s, and the preview fetch timeout is shorter, not longer,
than the 30 s metadata timeout, refuting the claimed ≈60 s binary
timeout. -/
theorem timeout_values_counterexample :
    getClient goodCfg = .ok (mkClient goodCfg) ∧
    (mkClient goodCfg).timeout = 30 ∧
    downloadFetchClient.timeout = 30 ∧
    (previewFetchClient "test-key").timeout = 15 ∧
    downloadFetchClient.timeout ≠ 60 ∧
    (previewFetchClient "test-key").timeout ≠ 60 ∧
    (previewFetchClient "test-key").timeout < (mkClient goodCfg).timeout :=
  ⟨rfl, rfl, rfl, rfl, by decide, by decide, by decide⟩

/-- C8, amended: every metadata API call goes through a client with a fixed
30 s timeout; the binary fetch of `get_preview` uses 15 s and the binary
fetch of `download_asset` uses 30 s (not ≈60 s); on expiry the call fails
with a timeout error distinct from an HTTP-status error. -/
theorem timeout_policy_amended (key : String) (cfg : Config) (s : Nat)
    (hb : cfg.base_url ≠ "") (hk : cfg.api_key ≠ "") :
    (∃ c, getClient cfg = .ok c ∧ c.timeout = 30) ∧
    (previewFetchClient key).timeout = 15 ∧
    downloadFetchClient.timeout = 30 ∧
    apiGet cfg .timeout = .error .timeoutError ∧
    ApiError.timeoutError ≠ ApiError.httpStatusError s := by
  refine ⟨⟨mkClient cfg, ?_, rfl⟩, rfl, rfl, ?_, by simp⟩ <;>
    simp [apiGet, gatewayCall, getClient, hb, hk]

/-- C8, witness for the amended theorem at the concrete configuration. -/
theorem timeout_policy_witness :
    apiGet goodCfg HttpOutcome.timeout = .error ApiError.timeoutError :=
  (timeout_policy_amended "test-key" goodCfg 500 (by decide) (by decide)).2.2.2.1

/-! ## C10: page size sent to the API is capped at 100 -/

/-- C10: for `search`, `list_collections` and `get_keywords` the `pageSize`
sent to the DAM equals `min(page_size, 100)` — so a caller value above 100
is silently capped at 100 — while `search` still echoes the caller's
original `page_size` in its response. -/
theorem page_size_capped (a : SearchArgs) (q : Option String) (page page_size : Int)
    (sort_by sort_direction : String) (files : List Obj) (quantity : Py)
    (h : 100 < page_size) :
    olookup (searchBaseParams page page_size sort_by sort_direction) "pageSize"
      = some (.int (min page_size 100)) ∧
    olookup (searchRequestParams a page page_size sort_by sort_direction) "pageSize"
      = some (.int 100) ∧
    olookup (listCollectionsParams page page_size) "pageSize" = some (.int 100) ∧
    olookup (getKeywordsParams q page page_size) "pageSize" = some (.int 100) ∧
    olookup (searchReturnData page page_size files quantity) "page_size"
      = some (.int page_size) := by
  have hmin : min page_size 100 = 100 := min_eq_right h.le
  have hbase : olookup (searchBaseParams page page_size sort_by sort_direction) "pageSize"
      = some (.int (min page_size 100)) := by
    simp [searchBaseParams, olookup]
  refine ⟨hbase, ?_, ?_, ?_, ?_⟩
  · rw [searchRequestParams]
    have hbase100 : olookup (searchBaseParams page page_size sort_by sort_direction) "pageSize"
        = some (.int 100) := by rw [hbase, hmin]
    cases buildFilters a with
    | nil => exact hbase100
    | cons f fs =>
      cases fs with
      | nil => exact olookup_append_left _ hbase100
      | cons g gs => exact olookup_append_left _ hbase100
  · simp [listCollectionsParams, olookup, hmin]
  · have hk : olookup [("page", Py.int page), ("pageSize", Py.int (min page_size 100))]
        "pageSize" = some (.int 100) := by simp [olookup, hmin]
    rcases q with _ | q
    · simpa [getKeywordsParams] using hk
    · simp only [getKeywordsParams]
      split
      · exact olookup_append_left _ hk
      · exact hk
  · simp [searchReturnData, olookup]

/-- C10, witness at `page_size = 150`. -/
theorem page_size_capped_witness :
    olookup (listCollectionsParams 1 150) "pageSize" = some (Py.int 100) :=
  (page_size_capped ⟨"", Option.none, Option.none, Option.none, Option.none⟩
    Option.none 1 150 "uploadDate" "desc" [] Py.none (by decide)).2.2.1

/-! ## C5: pagination metadata carries no next-offset field -/

/-- C5, counterexample: at the spec's own example — total 55, page 2 with
page size 20, 20 results returned, so offset 20 and `55 > 20 + 20` (more
results remain) — the `search` return value has no `next_offset` (nor
`next_page`) field: its key set is exactly ids, results, total_results,
page, page_size.  This refutes the claim that a next-offset field is
present exactly when more results remain. -/
theorem pagination_no_next_offset_counterexample :
    (55 : Int) > 20 + 20 ∧
    (List.replicate 20 ([] : Obj)).length = 20 ∧
    olookup (searchReturnData 2 20 (List.replicate 20 []) (Py.int 55)) "next_offset"
      = Option.none ∧
    olookup (searchReturnData 2 20 (List.replicate 20 []) (Py.int 55)) "next_page"
      = Option.none ∧
    objKeys (searchReturnData 2 20 (List.replicate 20 []) (Py.int 55)) = searchReturnKeys :=
  ⟨by decide, by decide, rfl, rfl, rfl⟩

/-- C5, amended: search results carry pagination metadata consisting of the
DAM total (`total_results`), the current `page` and the echoed `page_size`;
the count returned is the length of `results` (and `ids`); no
next-offset/next-page field is ever present, whether or not more results
remain. -/
theorem pagination_metadata_amended (page page_size : Int) (files : List Obj) (quantity : Py) :
    objKeys (searchReturnData page page_size files quantity) = searchReturnKeys ∧
    olookup (searchReturnData page page_size files quantity) "next_offset" = Option.none ∧
    olookup (searchReturnData page page_size files quantity) "next_page" = Option.none ∧
    olookup (searchReturnData page page_size files quantity) "total_results" = some quantity ∧
    olookup (searchReturnData page page_size files quantity) "page" = some (.int page) ∧
    olookup (searchReturnData page page_size files quantity) "page_size"
      = some (.int page_size) ∧
    (∃ rs, olookup (searchReturnData page page_size files quantity) "results"
        = some (.list rs) ∧ rs.length = files.length) := by
  refine ⟨rfl, ?_, ?_, ?_, ?_, ?_, ⟨files.map (fun f => .dict (searchResultRecord f)), ?_, ?_⟩⟩ <;>
    simp [searchReturnData, olookup]

/-! ## C1: filter construction and connector wrapping -/

/-- C1: the filter builder constructs one tagged filter per provided input
in the fixed order search-term, type, extension, directory, collection
(and never a connector as a leaf); the request's `filter` parameter is the
single filter when exactly one was built, the `connectorAnd` of all of
them, in construction order, when more than one was built, and is omitted
when none was built. -/
theorem search_filter_builder_correct (a : SearchArgs) (page page_size : Int)
    (sort_by sort_direction : String) :
    buildFilters a = List.filterMap id
      [if a.query != "" then some (Filter.searchTerm a.query) else Option.none,
       if optStrTruthy a.file_type then some (Filter.fileType (a.file_type.getD "")) else Option.none,
       if optStrTruthy a.file_extension then some (Filter.fileExtension (a.file_extension.getD "")) else Option.none,
       if optIntTruthy a.directory_id then some (Filter.directory (a.directory_id.getD 0)) else Option.none,
       if optIntTruthy a.collection_id then some (Filter.collection (a.collection_id.getD 0)) else Option.none] ∧
    (∀ f ∈ buildFilters a, f.isConnector = false) ∧
    (buildFilters a = [] →
      olookup (searchRequestParams a page page_size sort_by sort_direction) "filter"
        = Option.none) ∧
    (∀ f, buildFilters a = [f] →
      olookup (searchRequestParams a page page_size sort_by sort_direction) "filter"
        = some (Filter.toPy f)) ∧
    (2 ≤ (buildFilters a).length →
      olookup (searchRequestParams a page page_size sort_by sort_direction) "filter"
        = some (Filter.toPy (.connectorAnd (buildFilters a)))) := by
  have hbasef : ∀ v : Py,
      olookup (searchBaseParams page page_size sort_by sort_direction ++ [("filter", v)])
        "filter" = some v := by
    intro v
    simp [searchBaseParams, olookup]
  have hbasen : olookup (searchBaseParams page page_size sort_by sort_direction) "filter"
      = Option.none := by
    simp [searchBaseParams, olookup]
  refine ⟨?_, ?_, ?_, ?_, ?_⟩
  · cases hq : (a.query != "") <;> cases ht : optStrTruthy a.file_type <;>
      cases he : optStrTruthy a.file_extension <;> cases hd : optIntTruthy a.directory_id <;>
      cases hc : optIntTruthy a.collection_id <;>
      simp [buildFilters, hq, ht, he, hd, hc]
  · intro f hf
    simp only [buildFilters, List.mem_append] at hf
    rcases hf with ((((hf | hf) | hf) | hf) | hf) <;>
      (split at hf <;> simp_all [Filter.isConnector])
  · intro h
    rw [searchRequestParams, h]
    exact hbasen
  · intro f h
    rw [searchRequestParams, h]
    exact hbasef _
  · intro h
    rw [searchRequestParams]
    rcases hbf : buildFilters a with _ | ⟨f, _ | ⟨g, fs⟩⟩
    · rw [hbf] at h; simp at h
    · rw [hbf] at h; simp at h
    · exact hbasef _

/-- C1, witness: query "logo" alone yields the single `searchTerm` filter
unwrapped; query "logo" with extension "png" yields a `connectorAnd` with
the two filters in query-then-extension order. -/
theorem search_filter_builder_witness :
    olookup (searchRequestParams ⟨"logo", Option.none, Option.none, Option.none, Option.none⟩
        1 20 "uploadDate" "desc") "filter"
      = some (Filter.toPy (Filter.searchTerm "logo")) ∧
    olookup (searchRequestParams ⟨"logo", Option.none, some "png", Option.none, Option.none⟩
        1 20 "uploadDate" "desc") "filter"
      = some (Filter.toPy (Filter.connectorAnd
          [Filter.searchTerm "logo", Filter.fileExtension "png"])) := by
  constructor
  · exact (search_filter_builder_correct ⟨"logo", Option.none, Option.none, Option.none,
      Option.none⟩ 1 20 "uploadDate" "desc").2.2.2.1 (Filter.searchTerm "logo") (by rfl)
  · have h := (search_filter_builder_correct ⟨"logo", Option.none, some "png", Option.none,
      Option.none⟩ 1 20 "uploadDate" "desc").2.2.2.2
    have hbf : buildFilters ⟨"logo", Option.none, some "png", Option.none, Option.none⟩
        = [Filter.searchTerm "logo", Filter.fileExtension "png"] := by rfl
    rw [hbf] at h
    exact h (by decide)

/-! ## C7: zero-valued directory and collection ids are not filtered on -/

/-- C7: a zero-valued (falsy) `directory_id` or `collection_id` is treated
exactly as "not provided": the built filter list with id 0 equals the one
built with `None`, and it contains no directory (resp. collection) filter
at all — so the search never filters on id 0. -/
theorem search_zero_id_ignored (q : String) (ft fe : Option String) (di ci : Option Int) :
    buildFilters ⟨q, ft, fe, some 0, ci⟩ = buildFilters ⟨q, ft, fe, Option.none, ci⟩ ∧
    buildFilters ⟨q, ft, fe, di, some 0⟩ = buildFilters ⟨q, ft, fe, di, Option.none⟩ ∧
    (buildFilters ⟨q, ft, fe, some 0, ci⟩).filter Filter.mentionsDirectory = [] ∧
    (buildFilters ⟨q, ft, fe, di, some 0⟩).filter Filter.mentionsCollection = [] := by
  refine ⟨by simp [buildFilters, optIntTruthy], by simp [buildFilters, optIntTruthy], ?_, ?_⟩
  · cases hq : (q != "") <;> cases ht : optStrTruthy ft <;> cases he : optStrTruthy fe <;>
      cases hc : optIntTruthy ci <;>
      simp [buildFilters, hq, ht, he, hc, optIntTruthy, Filter.mentionsDirectory]
  · cases hq : (q != "") <;> cases ht : optStrTruthy ft <;> cases he : optStrTruthy fe <;>
      cases hd : optIntTruthy di <;>
      simp [buildFilters, hq, ht, he, hd, optIntTruthy, Filter.mentionsCollection]

/-! ## C2: normalization of `search` and `fetch` is total with fixed defaults -/

/-- C2: over every JSON-object payload (any subset of fields absent) the
normalizations of `search` and `fetch` are total functions — they are
defined for every object `f`/`g`, so they never throw — always produce
exactly the fixed flat key sets, and replace each missing input field by
its fixed default: empty string, empty list, `False`, `None`, or, for the
`id` of `fetch`, the requested id itself. -/
theorem normalization_total_with_defaults (f : Obj) (i : String) (g : Obj) :
    objKeys (searchResultRecord f) = searchRecordKeys ∧
    objKeys (fetchRecord i g) = fetchRecordKeys ∧
    (olookup f "id" = Option.none →
      olookup (searchResultRecord f) "id" = some (.str "")) ∧
    (olookup f "fileName" = Option.none →
      olookup (searchResultRecord f) "title" = some (.str "")) ∧
    (olookup f "description" = Option.none → olookup f "subject" = Option.none →
      olookup (searchResultRecord f) "description" = some (.str "")) ∧
    (olookup f "fileType" = Option.none →
      olookup (searchResultRecord f) "file_type" = some (.str "")) ∧
    (olookup f "fileExtension" = Option.none →
      olookup (searchResultRecord f) "file_extension" = some (.str "")) ∧
    (olookup f "keywords" = Option.none →
      olookup (searchResultRecord f) "keywords" = some (.list [])) ∧
    (olookup f "rating" = Option.none →
      olookup (searchResultRecord f) "rating" = some .none) ∧
    (olookup f "previewFileURL" = Option.none →
      olookup (searchResultRecord f) "preview_url" = some (.str "")) ∧
    (olookup f "uploadDate" = Option.none →
      olookup (searchResultRecord f) "upload_date" = some (.str "")) ∧
    (olookup f "fileSize" = Option.none →
      olookup (searchResultRecord f) "file_size" = some .none) ∧
    (olookup f "width" = Option.none →
      olookup (searchResultRecord f) "dimensions" = some .none) ∧
    (olookup g "id" = Option.none →
      olookup (fetchRecord i g) "id" = some (.str i)) ∧
    (olookup g "fileName" = Option.none →
      olookup (fetchRecord i g) "title" = some (.str "") ∧
      olookup (fetchRecord i g) "file_name" = some (.str "")) ∧
    (olookup g "fileExtension" = Option.none →
      olookup (fetchRecord i g) "file_extension" = some (.str "")) ∧
    (olookup g "fileType" = Option.none →
      olookup (fetchRecord i g) "file_type" = some (.str "")) ∧
    (olookup g "fileSize" = Option.none →
      olookup (fetchRecord i g) "file_size" = some .none) ∧
    (olookup g "description" = Option.none →
      olookup (fetchRecord i g) "description" = some (.str "")) ∧
    (olookup g "subject" = Option.none →
      olookup (fetchRecord i g) "subject" = some (.str "")) ∧
    (olookup g "creator" = Option.none →
      olookup (fetchRecord i g) "creator" = some (.str "")) ∧
    (olookup g "keywords" = Option.none →
      olookup (fetchRecord i g) "keywords" = some (.list [])) ∧
    (olookup g "rating" = Option.none →
      olookup (fetchRecord i g) "rating" = some .none) ∧
    (olookup g "colorspace" = Option.none →
      olookup (fetchRecord i g) "colorspace" = some (.str "")) ∧
    (olookup g "width" = Option.none →
      olookup (fetchRecord i g) "width" = some .none) ∧
    (olookup g "height" = Option.none →
      olookup (fetchRecord i g) "height" = some .none) ∧
    (olookup g "orientation" = Option.none →
      olookup (fetchRecord i g) "orientation" = some (.str "")) ∧
    (olookup g "previewFileURL" = Option.none →
      olookup (fetchRecord i g) "preview_url" = some (.str "")) ∧
    (olookup g "originalFileURL" = Option.none →
      olookup (fetchRecord i g) "original_file_url" = some (.str "")) ∧
    (olookup g "createDate" = Option.none →
      olookup (fetchRecord i g) "create_date" = some (.str "")) ∧
    (olookup g "modifyDate" = Option.none →
      olookup (fetchRecord i g) "modify_date" = some (.str "")) ∧
    (olookup g "uploadDate" = Option.none →
      olookup (fetchRecord i g) "upload_date" = some (.str "")) ∧
    (olookup g "directory" = Option.none →
      olookup (fetchRecord i g) "directory" = some .none) ∧
    (olookup g "staticCollections" = Option.none →
      olookup (fetchRecord i g) "collections" = some (.list [])) ∧
    (olookup g "languageCodes" = Option.none →
      olookup (fetchRecord i g) "language_codes" = some (.list [])) ∧
    (olookup g "isArchived" = Option.none →
      olookup (fetchRecord i g) "is_archived" = some (.bool false)) ∧
    (olookup g "isDownloadLocked" = Option.none →
      olookup (fetchRecord i g) "is_download_locked" = some (.bool false)) ∧
    (olookup g "metadataFields" = Option.none →
      olookup (fetchRecord i g) "metadata_fields" = some .none) := by
  refine ⟨rfl, rfl, ?_, ?_, ?_, ?_, ?_, ?_, ?_, ?_, ?_, ?_, ?_, ?_, ?_, ?_, ?_, ?_, ?_,
    ?_, ?_, ?_, ?_, ?_, ?_, ?_, ?_, ?_, ?_, ?_, ?_, ?_, ?_, ?_, ?_, ?_, ?_, ?_⟩ <;>
    (intros
     simp_all [searchResultRecord, fetchRecord, ogetD, olookup, pyOr, truthy, pyStr])

/-- C2, witness: on the empty payload every default fires — here the
two-key description fallback, the requested-id fallback of `fetch`, and
the fixed key sets. -/
theorem normalization_total_witness :
    olookup (searchResultRecord []) "description" = some (Py.str "") ∧
    olookup (fetchRecord "77" []) "id" = some (Py.str "77") ∧
    objKeys (searchResultRecord []) = searchRecordKeys ∧
    objKeys (fetchRecord "77" []) = fetchRecordKeys := by
  have h := normalization_total_with_defaults [] "77" []
  exact ⟨h.2.2.2.2.1 rfl rfl, h.2.2.2.2.2.2.2.2.2.2.2.2.2.1 rfl, h.1, h.2.1⟩

/-! ## C9: directory tree formatting is order-preserving and recursive -/

/-- C9: for every directory record whose `children` field is a non-empty
list, `_format_dir` produces the base fields followed by a `children`
entry holding the recursively formatted children in exactly the input
order, nested one level inside the parent's record; a record with no
`children` field, or with an empty children list, gets no `children`
entry. -/
theorem format_dir_children (d : Obj) (cs : List Py) :
    (olookup d "children" = some (.list cs) → cs ≠ [] →
      formatDir (.dict d)
        = .dict (formatDirBase d ++ [("children", .list (cs.map formatDir))])) ∧
    (olookup d "children" = Option.none → formatDir (.dict d) = .dict (formatDirBase d)) ∧
    (olookup d "children" = some (.list []) →
      formatDir (.dict d) = .dict (formatDirBase d)) := by
  refine ⟨?_, ?_, ?_⟩
  · intro h hne
    rw [formatDir]
    have ht : truthy (ogetD d "children" Py.none) = true := by
      simp [ogetD, h, truthy, List.isEmpty_eq_false, hne]
    rw [if_pos ht]
    split
    · next cs2 h2 =>
      rw [h] at h2
      cases h2
      rw [List.attach_map_val cs formatDir]
    · next v h2 h3 =>
      rw [h] at h3
      cases h3
      exact (h2 cs rfl).elim
    · next h2 =>
      rw [h] at h2
      cases h2
  · intro h
    rw [formatDir]
    have ht : truthy (ogetD d "children" Py.none) = false := by
      simp [ogetD, h, truthy]
    rw [if_neg (by simp [ht])]
  · intro h
    rw [formatDir]
    have ht : truthy (ogetD d "children" Py.none) = false := by
      simp [ogetD, h, truthy]
    rw [if_neg (by simp [ht])]

/-- C9, witness: a parent with two children is formatted with both
children one level inside it, in input order. -/
theorem format_dir_children_witness :
    formatDir (.dict parentDir)
      = .dict (formatDirBase parentDir ++
          [("children", Py.list [formatDir (Py.dict childA), formatDir (Py.dict childB)])]) := by
  have h := (format_dir_children parentDir [Py.dict childA, Py.dict childB]).1
    (by rfl) (by simp)
  simpa using h

end Pixxio
